import Mathlib

/-!
Shallow embedding of `src/devpi/devpi.py`, a three-stage devpi end-to-end
test driver (login, upload, download), together with the fixture metadata
of `src/devpi/test-package/setup.py`.

The external world (the outcome of each spawned subprocess) is modelled as
a function `Nat → CommandResult` giving the outcome of the n-th external
command of the run, where n is the number of commands attempted before it.
The observable process state (current working directory, the directory
entries of the package directory, the ordered trace of attempted external
commands, and the ordered trace of `os.chdir` calls) is threaded
explicitly through every function.
-/

namespace Devpi

/-- Outcome of one `subprocess.run` invocation: exit status, captured
stdout and captured stderr. -/
structure CommandResult where
  returncode : Int
  stdout : String
  stderr : String
deriving DecidableEq

/-- The Python `subprocess.CalledProcessError` as raised by `run_command`.
The source constructs it as `CalledProcessError(result.returncode, cmd)`,
so the `output` and `stderr` attributes keep their default `None`. -/
structure CalledProcessError where
  returncode : Int
  cmd : List String
  output : Option String
  stderr : Option String
deriving DecidableEq

/-- Observable state of one run of the script: the process working
directory, the directory entries of the package directory (what the purge
loop of `test_upload` operates on), the ordered list of external commands
attempted so far, and the ordered list of `os.chdir` calls made so far. -/
structure RunState where
  cwd : String
  dirs : List String
  trace : List (List String)
  chdirs : List String
deriving DecidableEq

/-- `sys.executable` of the running interpreter, an opaque-to-the-logic
constant string. -/
def sys_executable : String := "python"

set_option linter.unusedVariables false in
/-- `run_command(cmd, check=True, capture_output=True)`: runs `cmd` via
`subprocess.run` (the command is recorded in the trace; its outcome is
given by the world), and when `check` holds and the exit status is
non-zero raises `subprocess.CalledProcessError(result.returncode, cmd)`;
otherwise returns the completed-process result. `capture_output` only
selects where the child's streams go and has no observable effect here. -/
def run_command (world : Nat → CommandResult) (cmd : List String)
    (check : Bool) (capture_output : Bool) (s : RunState) :
    Except CalledProcessError CommandResult × RunState :=
  let result := world s.trace.length
  let s1 : RunState := { s with trace := s.trace ++ [cmd] }
  if check = true ∧ result.returncode ≠ 0 then
    (Except.error
      { returncode := result.returncode, cmd := cmd,
        output := none, stderr := none }, s1)
  else
    (Except.ok result, s1)

/-- `os.chdir`: changes the process working directory, recording the call
in the chdir trace. -/
def os_chdir (d : String) (s : RunState) : RunState :=
  { s with cwd := d, chdirs := s.chdirs ++ [d] }

/-- One iteration of the purge loop of `test_upload`:
`if os.path.exists(dir_name): shutil.rmtree(dir_name, ignore_errors=True)`.
The name is matched literally against the directory entries (Python's
`os.path.exists` does not expand glob patterns), and deletion errors are
ignored (`ignore_errors=True`). -/
def rmtree_if_exists (ds : List String) (dir_name : String) : List String :=
  if dir_name ∈ ds then ds.filter (fun d => d ≠ dir_name) else ds

/-- The purge loop of `test_upload`, iterating over the literal names
`["build", "dist", "*.egg-info"]`. -/
def purge_artifacts (ds : List String) : List String :=
  rmtree_if_exists (rmtree_if_exists (rmtree_if_exists ds "build") "dist")
    "*.egg-info"

/-- `test_login(server, username, password)`: `devpi use server` then
`devpi login username --password password`; `True` iff both succeed, any
`CalledProcessError` is caught and yields `False`. -/
def test_login (world : Nat → CommandResult)
    (server username password : String) (s : RunState) : Bool × RunState :=
  match run_command world ["devpi", "use", server] true true s with
  | (Except.error _, s1) => (false, s1)
  | (Except.ok _, s1) =>
    match run_command world
        ["devpi", "login", username, "--password", password] true true s1 with
    | (Except.error _, s2) => (false, s2)
    | (Except.ok _, s2) => (true, s2)

/-- `test_upload(index, package_dir)`: `devpi use index`; then save the
working directory, `os.chdir(package_dir)`, and inside a `try/finally`
that restores the working directory: purge build artifacts, run
`python setup.py sdist bdist_wheel`, run `devpi upload`. `True` iff every
command succeeds; any `CalledProcessError` is caught (after the `finally`
restore) and yields `False`. -/
def test_upload (world : Nat → CommandResult) (index package_dir : String)
    (s : RunState) : Bool × RunState :=
  match run_command world ["devpi", "use", index] true true s with
  | (Except.error _, s1) => (false, s1)
  | (Except.ok _, s1) =>
    let original_dir := s1.cwd
    let s2 := os_chdir package_dir s1
    let s3 : RunState := { s2 with dirs := purge_artifacts s2.dirs }
    match run_command world [sys_executable, "setup.py", "sdist", "bdist_wheel"]
        true true s3 with
    | (Except.error _, s4) => (false, os_chdir original_dir s4)
    | (Except.ok _, s4) =>
      match run_command world ["devpi", "upload"] true true s4 with
      | (Except.error _, s5) => (false, os_chdir original_dir s5)
      | (Except.ok _, s5) => (true, os_chdir original_dir s5)

/-- The install specifier `f"{package_name}=={package_version}"` built by
`test_download`. -/
def package_spec (package_name package_version : String) : String :=
  package_name ++ "==" ++ package_version

/-- The pip install command of `test_download`. -/
def pip_install_cmd (spec : String) : List String :=
  [sys_executable, "-m", "pip", "install", spec]

/-- The pip uninstall command of `test_download`. -/
def pip_uninstall_cmd (package_name : String) : List String :=
  [sys_executable, "-m", "pip", "uninstall", "-y", package_name]

/-- `test_download(package_name, package_version)`: pip-install the exact
`name==version` specifier, then pip-uninstall it (this cleanup call keeps
the default `check=True`). A `CalledProcessError` from either call is
caught by the `except` handler, which attempts one more uninstall with
`check=False` (inside `try: ... except: pass`) and returns `False`. -/
def test_download (world : Nat → CommandResult)
    (package_name package_version : String) (s : RunState) :
    Bool × RunState :=
  match run_command world
      (pip_install_cmd (package_spec package_name package_version))
      true true s with
  | (Except.error _, s1) =>
    let r2 := run_command world (pip_uninstall_cmd package_name) false true s1
    (false, r2.2)
  | (Except.ok _, s1) =>
    match run_command world (pip_uninstall_cmd package_name) true true s1 with
    | (Except.error _, s2) =>
      let r3 := run_command world (pip_uninstall_cmd package_name) false true s2
      (false, r3.2)
    | (Except.ok _, s2) => (true, s2)

/-- The parsed CLI arguments of `main` (all four flags are required). -/
structure Args where
  server : String
  username : String
  password : String
  index : String
deriving DecidableEq

/-- The fixed fixture package name in `main`. -/
def package_name : String := "hello-devpi-test"

/-- The fixed fixture package version in `main`. -/
def package_version : String := "0.0.1"

/-- `package_dir = script_dir / "test-package"` in `main`, as a path
string. -/
def package_dir : String := "test-package"

/-- Observable outcome of `main`: the result table (insertion order =
execution order), the `sys.exit` code, and the final run state. -/
structure MainOutcome where
  results : List (String × Bool)
  exitCode : Nat
  state : RunState
deriving DecidableEq

/-- `main()` after argument parsing: if the package directory is missing,
`sys.exit(1)` before any stage. Otherwise run `test_login`, then
`test_upload` only if login succeeded (else record `False`), then
`test_download` only if upload succeeded (else record `False`); compute
`all_passed` by the summary loop over the result table and exit 0 if it
holds, 1 otherwise. -/
def main (world : Nat → CommandResult) (args : Args)
    (package_dir_exists : Bool) (s : RunState) : MainOutcome :=
  if package_dir_exists then
    let login := test_login world args.server args.username args.password s
    let upload :=
      if login.1 then test_upload world args.index package_dir login.2
      else (false, login.2)
    let download :=
      if upload.1 then test_download world package_name package_version upload.2
      else (false, upload.2)
    let results := [("login", login.1), ("upload", upload.1),
      ("download", download.1)]
    let all_passed := results.foldl (fun acc r => if r.2 then acc else false) true
    { results := results, exitCode := if all_passed then 0 else 1,
      state := download.2 }
  else
    { results := [], exitCode := 1, state := s }

/-- The keyword arguments of the `setup(...)` call in
`src/devpi/test-package/setup.py` (the fields the claims mention). -/
structure SetupArgs where
  name : String
  version : String
  description : String
  author : String
deriving DecidableEq

/-- The fixture package metadata declared by
`src/devpi/test-package/setup.py`. -/
def test_package_setup : SetupArgs :=
  { name := "hello-devpi-test", version := "0.0.1",
    description := "A simple test package", author := "leroy jenkins" }

/-! ### Concrete worlds and states used to instantiate the theorems -/

/-- A world in which every external command fails with exit status 1 and
stderr `"boom"`. -/
def world_all_fail : Nat → CommandResult :=
  fun _ => { returncode := 1, stdout := "", stderr := "boom" }

/-- A world in which every external command succeeds. -/
def world_all_ok : Nat → CommandResult :=
  fun _ => { returncode := 0, stdout := "", stderr := "" }

/-- A world in which the first external command succeeds and every later
one fails with exit status 1. -/
def world_fail_after_first : Nat → CommandResult :=
  fun n => if n = 0 then { returncode := 0, stdout := "", stderr := "" }
    else { returncode := 1, stdout := "", stderr := "bad" }

/-- A sample initial run state: the package directory holds a `build`
directory, a `dist` directory and an egg metadata directory. -/
def state0 : RunState :=
  { cwd := "/home/user", dirs := ["build", "dist", "pkg.egg-info"],
    trace := [], chdirs := [] }

/-- Sample CLI arguments. -/
def args0 : Args :=
  { server := "https://srv", username := "alice", password := "pw",
    index := "alice/dev" }

/-! ### Helper lemmas -/

/-- Closed form of `run_command`: the command is always appended to the
trace, and the result is an error exactly when `check` holds and the exit
status is non-zero. -/
theorem run_command_eq (world : Nat → CommandResult) (cmd : List String)
    (check capture_output : Bool) (s : RunState) :
    run_command world cmd check capture_output s =
      (if check = true ∧ (world s.trace.length).returncode ≠ 0 then
        Except.error { returncode := (world s.trace.length).returncode,
                       cmd := cmd, output := none, stderr := none }
       else Except.ok (world s.trace.length),
       { s with trace := s.trace ++ [cmd] }) := by
  by_cases h : check = true ∧ (world s.trace.length).returncode ≠ 0 <;>
    simp [run_command, h]

/-- Closed form of `test_download` in terms of the outcomes of its first
two commands (install, then the `check=True` cleanup uninstall). -/
theorem test_download_eq (world : Nat → CommandResult) (pn pv : String)
    (s : RunState) :
    test_download world pn pv s =
      if (world s.trace.length).returncode = 0 then
        (if (world (s.trace.length + 1)).returncode = 0 then
          (true, { s with trace := s.trace ++
            [pip_install_cmd (package_spec pn pv), pip_uninstall_cmd pn] })
        else
          (false, { s with trace := s.trace ++
            [pip_install_cmd (package_spec pn pv), pip_uninstall_cmd pn,
             pip_uninstall_cmd pn] }))
      else
        (false, { s with trace := s.trace ++
          [pip_install_cmd (package_spec pn pv), pip_uninstall_cmd pn] }) := by
  by_cases h0 : (world s.trace.length).returncode = 0
  · by_cases h1 : (world (s.trace.length + 1)).returncode = 0 <;>
      simp [test_download, run_command_eq, h0, h1]
  · simp [test_download, run_command_eq, h0]

/-- `test_upload` always restores the working directory: on every exit
path the final `cwd` equals the initial one. -/
theorem test_upload_preserves_cwd (world : Nat → CommandResult)
    (index pkgd : String) (s : RunState) :
    (test_upload world index pkgd s).2.cwd = s.cwd := by
  by_cases h0 : (world s.trace.length).returncode = 0
  · by_cases h1 : (world (s.trace.length + 1)).returncode = 0
    · by_cases h2 : (world (s.trace.length + 2)).returncode = 0 <;>
        simp [test_upload, run_command_eq, os_chdir, h0, h1, h2]
    · simp [test_upload, run_command_eq, os_chdir, h0, h1]
  · simp [test_upload, run_command_eq, h0]

/-! ### Claim theorems -/

/-- C1: for every run that reaches the summary (the package directory
exists), the exit code is 0 iff all three recorded stage results are
true, and 1 otherwise; and the triple of stage outcomes is one of the
four combinations reachable under the gating rule. -/
theorem exit_zero_iff_all_pass (world : Nat → CommandResult) (args : Args)
    (s : RunState) :
    ((main world args true s).exitCode = 0 ↔
      (main world args true s).results.all (fun r => r.2) = true) ∧
    ((main world args true s).exitCode = 0 ∨
      (main world args true s).exitCode = 1) ∧
    (main world args true s).results.map (fun r => r.2) ∈
      [[true, true, true], [true, true, false], [true, false, false],
       [false, false, false]] := by
  simp only [main, if_true]
  rcases hL : test_login world args.server args.username args.password s
    with ⟨lb, ls⟩
  simp only [hL]
  cases lb
  · simp
  · rcases hU : test_upload world args.index package_dir ls with ⟨ub, us⟩
    simp only [hU, if_true]
    cases ub
    · simp
    · rcases hD : test_download world package_name package_version us
        with ⟨db, ds⟩
      simp only [hD, if_true]
      cases db <;> simp

/-- C2: if the login stage fails, upload and download are recorded as
failed and the run state after the whole pipeline equals the state right
after login (so neither stage function runs any external command); if
login succeeds and the upload stage fails, download is recorded as failed
and the final state equals the state right after upload. -/
theorem gating_skips_later_stages (world : Nat → CommandResult)
    (args : Args) (s : RunState) :
    ((test_login world args.server args.username args.password s).1 = false →
      (main world args true s).results =
        [("login", false), ("upload", false), ("download", false)] ∧
      (main world args true s).state =
        (test_login world args.server args.username args.password s).2) ∧
    ((test_login world args.server args.username args.password s).1 = true →
      (test_upload world args.index package_dir
        (test_login world args.server args.username args.password s).2).1 =
        false →
      (main world args true s).results =
        [("login", true), ("upload", false), ("download", false)] ∧
      (main world args true s).state =
        (test_upload world args.index package_dir
          (test_login world args.server args.username args.password s).2).2) := by
  constructor
  · intro h
    simp [main, h]
  · intro h1 h2
    simp [main, h1, h2]

/-- C2 witness: in the world where every command fails, login fails and
the pipeline records all three stages failed without running upload or
download. -/
theorem gating_skips_later_stages_witness :
    (main world_all_fail args0 true state0).results =
      [("login", false), ("upload", false), ("download", false)] ∧
    (main world_all_fail args0 true state0).state =
      (test_login world_all_fail args0.server args0.username args0.password
        state0).2 :=
  (gating_skips_later_stages world_all_fail args0 state0).1 (by decide)

/-- C3 counterexample: in the world where the first command succeeds and
all later ones fail, the install command (the first command of the
retrieve stage) succeeds, yet the stage result is `false`, because the
cleanup uninstall keeps `check=True` and its failure is caught by the
`except` handler — refuting "the stage result is true if and only if the
install command succeeds". -/
theorem download_fails_despite_install_success :
    (world_fail_after_first 0).returncode = 0 ∧
    (test_download world_fail_after_first package_name package_version
      state0).2.trace.head? =
      some (pip_install_cmd (package_spec package_name package_version)) ∧
    (test_download world_fail_after_first package_name package_version
      state0).1 = false := by
  refine ⟨by decide, by decide, by decide⟩

/-- C3 amended: the retrieve stage result is true if and only if both the
install command and the first (`check=True`) cleanup uninstall command
succeed; a failure of the cleanup uninstall after a successful install
does make the stage result false. -/
theorem download_success_iff (world : Nat → CommandResult) (pn pv : String)
    (s : RunState) :
    (test_download world pn pv s).1 = true ↔
      ((world s.trace.length).returncode = 0 ∧
       (world (s.trace.length + 1)).returncode = 0) := by
  rw [test_download_eq]
  by_cases h0 : (world s.trace.length).returncode = 0 <;>
    by_cases h1 : (world (s.trace.length + 1)).returncode = 0 <;>
    simp [h0, h1]

/-- C4 counterexample: in the world where the install command succeeds and
the cleanup uninstall fails, the retrieve stage attempts the uninstall
command twice (once with `check=True`, then once more from the `except`
handler with `check=False`) — refuting "the uninstall command is attempted
exactly once". -/
theorem download_uninstall_attempted_twice :
    (test_download world_fail_after_first package_name package_version
      state0).2.trace =
      [pip_install_cmd (package_spec package_name package_version),
       pip_uninstall_cmd package_name, pip_uninstall_cmd package_name] := by
  decide

/-- C4 amended: whenever the install command is attempted, the uninstall
command is attempted afterwards — twice when the install succeeds and the
first cleanup uninstall fails, and exactly once in every other case. -/
theorem download_uninstall_trace (world : Nat → CommandResult)
    (pn pv : String) (s : RunState) :
    (test_download world pn pv s).2.trace =
      s.trace ++ [pip_install_cmd (package_spec pn pv)] ++
      (if (world s.trace.length).returncode = 0 ∧
          (world (s.trace.length + 1)).returncode ≠ 0 then
        [pip_uninstall_cmd pn, pip_uninstall_cmd pn]
       else [pip_uninstall_cmd pn]) := by
  rw [test_download_eq]
  by_cases h0 : (world s.trace.length).returncode = 0 <;>
    by_cases h1 : (world (s.trace.length + 1)).returncode = 0 <;>
    simp [h0, h1]

/-- C5 counterexample: on a non-zero exit status with captured stderr
`"boom"`, the raised `CalledProcessError` is constructed as
`CalledProcessError(result.returncode, cmd)`, so its `stderr` attribute
is `None` rather than the captured stderr — refuting "carries both the
exit status and the captured stderr". -/
theorem called_process_error_lacks_stderr :
    (world_all_fail 0).returncode = 1 ∧
    (world_all_fail 0).stderr = "boom" ∧
    (run_command world_all_fail ["devpi", "use", "https://srv"] true true
      state0).1 =
      Except.error { returncode := 1, cmd := ["devpi", "use", "https://srv"],
                     output := none, stderr := none } := by
  refine ⟨rfl, rfl, rfl⟩

/-- C5 amended: with `check=False` the executor never raises and returns
the command outcome regardless of the exit status; with `check=True` it
returns the outcome on a zero exit status, and on a non-zero exit status
raises a `CalledProcessError` carrying the exit status and the command,
with no stderr attached to the error (the captured stderr is printed to
the error stream instead). -/
theorem run_command_check_behaviour (world : Nat → CommandResult)
    (cmd : List String) (capture_output : Bool) (s : RunState) :
    (run_command world cmd false capture_output s).1 =
      Except.ok (world s.trace.length) ∧
    ((world s.trace.length).returncode = 0 →
      (run_command world cmd true capture_output s).1 =
        Except.ok (world s.trace.length)) ∧
    ((world s.trace.length).returncode ≠ 0 →
      (run_command world cmd true capture_output s).1 =
        Except.error { returncode := (world s.trace.length).returncode,
                       cmd := cmd, output := none, stderr := none }) := by
  refine ⟨?_, fun h => ?_, fun h => ?_⟩ <;> simp [run_command_eq, *]

/-- C5 witness: on a succeeding command with `check=True` the outcome is
returned, and on a failing one the error with exit status 1 and no
stderr is raised. -/
theorem run_command_check_behaviour_witness :
    (run_command world_all_ok ["devpi", "upload"] true true state0).1 =
      Except.ok (world_all_ok 0) ∧
    (run_command world_all_fail ["devpi", "upload"] true true state0).1 =
      Except.error { returncode := 1, cmd := ["devpi", "upload"],
                     output := none, stderr := none } :=
  ⟨(run_command_check_behaviour world_all_ok ["devpi", "upload"] true
      state0).2.1 (by decide),
   (run_command_check_behaviour world_all_fail ["devpi", "upload"] true
      state0).2.2 (by decide)⟩

set_option linter.unusedVariables false in
/-- C6: in every run of the publish stage in which the working directory
was changed (the chdir trace grew), the working directory after the stage
equals the working directory before it, on every exit path including
failures of the purge, build or upload steps. -/
theorem upload_restores_cwd (world : Nat → CommandResult)
    (index pkgd : String) (s : RunState)
    (h : (test_upload world index pkgd s).2.chdirs ≠ s.chdirs) :
    (test_upload world index pkgd s).2.cwd = s.cwd :=
  test_upload_preserves_cwd world index pkgd s

/-- C6 witness: in the world where the index selection succeeds and the
build fails, the stage did change directory and the working directory is
restored. -/
theorem upload_restores_cwd_witness :
    (test_upload world_fail_after_first "alice/dev" package_dir
      state0).2.chdirs ≠ state0.chdirs ∧
    (test_upload world_fail_after_first "alice/dev" package_dir
      state0).2.cwd = state0.cwd :=
  ⟨by decide,
   upload_restores_cwd world_fail_after_first "alice/dev" package_dir state0
     (by decide)⟩

/-- C7: when the package-source directory does not exist, the run exits
with code 1 before any stage: the result table is empty and the run state
(in particular the command trace) is untouched. -/
theorem missing_package_dir_aborts (world : Nat → CommandResult)
    (args : Args) (s : RunState) :
    (main world args false s).exitCode = 1 ∧
    (main world args false s).results = [] ∧
    (main world args false s).state = s :=
  ⟨rfl, rfl, rfl⟩

/-- C8: the purge loop tests the literal name `"*.egg-info"` with
`os.path.exists` instead of expanding it as a glob, so a real egg
metadata directory such as `"pkg.egg-info"` survives the purge (while
`build` and `dist` are removed, and only a directory literally named
`"*.egg-info"` would be removed); a full successful publish run leaves
the egg metadata directory in place. -/
theorem purge_misses_egg_info :
    purge_artifacts ["build", "dist", "pkg.egg-info"] = ["pkg.egg-info"] ∧
    purge_artifacts ["*.egg-info"] = [] ∧
    (test_upload world_all_ok "alice/dev" package_dir state0).2.dirs =
      ["pkg.egg-info"] := by
  refine ⟨by decide, by decide, by decide⟩

/-- C9: the install specifier built by the retrieve stage from the
driver's constants equals the one built from the fixture package's
`setup.py` metadata: name and version are identical constants on both
sides. -/
theorem install_spec_matches_fixture :
    package_spec package_name package_version =
      package_spec test_package_setup.name test_package_setup.version ∧
    package_name = test_package_setup.name ∧
    package_version = test_package_setup.version :=
  ⟨rfl, rfl, rfl⟩

/-- C10: if the index-selection command (the first command of the publish
stage) fails, the stage returns `false` and the process working directory
is never changed at all: the chdir trace and the working directory are
untouched. -/
theorem upload_index_failure_no_chdir (world : Nat → CommandResult)
    (index pkgd : String) (s : RunState)
    (h : (world s.trace.length).returncode ≠ 0) :
    (test_upload world index pkgd s).1 = false ∧
    (test_upload world index pkgd s).2.chdirs = s.chdirs ∧
    (test_upload world index pkgd s).2.cwd = s.cwd := by
  simp [test_upload, run_command_eq, h]

/-- C10 witness: in the world where every command fails, the publish
stage fails at index selection and the working directory is untouched. -/
theorem upload_index_failure_no_chdir_witness :
    (test_upload world_all_fail "alice/dev" package_dir state0).1 = false ∧
    (test_upload world_all_fail "alice/dev" package_dir state0).2.chdirs =
      state0.chdirs ∧
    (test_upload world_all_fail "alice/dev" package_dir state0).2.cwd =
      state0.cwd :=
  upload_index_failure_no_chdir world_all_fail "alice/dev" package_dir state0
    (by decide)

end Devpi
